import Mathlib

/-!
Verification of the geomate feature-extraction core (stable identifiers,
direction canonicalization, and the cylinder hole/shaft classifier) against
its natural-language specification.  The B-Rep kernel (OpenCascade) is
external: its answers (surface type, UV bounds, surface point/normal,
point-containment state) are modelled as explicit oracle fields, and all
numeric computation is carried out exactly over `ℚ`.
-/

/-- A 3D vector with rational components (models `gp_Pnt` / `gp_Dir`
coordinate triples; the kernel's normalization is irrelevant to the
sign/rounding logic verified here). -/
structure Vec3 where
  x : ℚ
  y : ℚ
  z : ℚ
deriving DecidableEq, Repr

/-- Componentwise negation, as in `gp_Dir(-x, -y, -z)`. -/
def Vec3.neg (v : Vec3) : Vec3 := ⟨-v.x, -v.y, -v.z⟩

/-- `p + eps * n`, the probe point construction from
`gp_Pnt(p.X() + n.X() * eps, ...)`. -/
def Vec3.addScaled (p : Vec3) (eps : ℚ) (n : Vec3) : Vec3 :=
  ⟨p.x + n.x * eps, p.y + n.y * eps, p.z + n.z * eps⟩

/-- `p - eps * n`, from `gp_Pnt(p.X() - n.X() * eps, ...)`. -/
def Vec3.subScaled (p : Vec3) (eps : ℚ) (n : Vec3) : Vec3 :=
  ⟨p.x - n.x * eps, p.y - n.y * eps, p.z - n.z * eps⟩

@[simp] theorem Vec3.neg_x (v : Vec3) : v.neg.x = -v.x := rfl
@[simp] theorem Vec3.neg_y (v : Vec3) : v.neg.y = -v.y := rfl
@[simp] theorem Vec3.neg_z (v : Vec3) : v.neg.z = -v.z := rfl

/-- A vector of unit Euclidean norm (the contract on `gp_Dir`). -/
def Vec3.isUnit (v : Vec3) : Prop := v.x * v.x + v.y * v.y + v.z * v.z = 1

instance (v : Vec3) : Decidable v.isUnit := by
  unfold Vec3.isUnit; infer_instance

/-! ## Canonicalizer (`_canonical_dir`, geomate/features/extract.py) -/

/-- Shallow embedding of `_canonical_dir`: deterministic sign choice making
the dominant component positive.  Mirrors the Python `if/elif/else` chain on
`abs(x), abs(y), abs(z)` exactly. -/
def canonical_dir (d : Vec3) : Vec3 :=
  let ax := |d.x|
  let ay := |d.y|
  let az := |d.z|
  if ax ≥ ay ∧ ax ≥ az then
    if d.x < 0 then d.neg else d
  else if ay ≥ ax ∧ ay ≥ az then
    if d.y < 0 then d.neg else d
  else
    if d.z < 0 then d.neg else d

/-- The three coordinate axes. -/
inductive Axis | x | y | z
deriving DecidableEq, Repr

/-- Signed component of `v` along an axis. -/
def Vec3.comp (v : Vec3) : Axis → ℚ
  | Axis.x => v.x
  | Axis.y => v.y
  | Axis.z => v.z

/-- Modelled from the spec's words: the first axis, checked in order x, then
y, then z, whose magnitude is greater-than-or-equal to the other two. -/
def dominantAxis (v : Vec3) : Axis :=
  if |v.x| ≥ |v.y| ∧ |v.x| ≥ |v.z| then Axis.x
  else if |v.y| ≥ |v.x| ∧ |v.y| ≥ |v.z| then Axis.y
  else Axis.z

/-- Modelled from the spec's words: negate the whole vector exactly when the
dominant axis's signed component is negative, else return it unchanged. -/
def canonicalizeSpec (v : Vec3) : Vec3 :=
  if v.comp (dominantAxis v) < 0 then v.neg else v

theorem canonical_dir_eq_spec (v : Vec3) : canonical_dir v = canonicalizeSpec v := by
  rcases v with ⟨a, b, c⟩
  unfold canonical_dir canonicalizeSpec dominantAxis
  by_cases h1 : |a| ≥ |b| ∧ |a| ≥ |c|
  · simp [h1, Vec3.comp]
  · by_cases h2 : |b| ≥ |a| ∧ |b| ≥ |c|
    · simp [h1, h2, Vec3.comp]
    · simp [h1, h2, Vec3.comp]

/-- Idempotence, unconditionally (a fortiori for unit vectors). -/
theorem canonical_dir_idem_all (v : Vec3) :
    canonical_dir (canonical_dir v) = canonical_dir v := by
  rcases v with ⟨a, b, c⟩
  unfold canonical_dir
  by_cases h1 : |a| ≥ |b| ∧ |a| ≥ |c|
  · by_cases hx : a < 0
    · have hx' : ¬ (-a < 0) := by linarith
      simp [h1, hx, Vec3.neg, abs_neg, hx']
    · simp [h1, hx, Vec3.neg, abs_neg]
  · by_cases h2 : |b| ≥ |a| ∧ |b| ≥ |c|
    · by_cases hy : b < 0
      · have hy' : ¬ (-b < 0) := by linarith
        simp [h1, h2, hy, Vec3.neg, abs_neg, hy']
      · simp [h1, h2, hy, Vec3.neg, abs_neg]
    · by_cases hz : c < 0
      · have hz' : ¬ (-c < 0) := by linarith
        simp [h1, h2, hz, Vec3.neg, abs_neg, hz']
      · simp [h1, h2, hz, Vec3.neg, abs_neg]

/-- Sign invariance, unconditionally: the tie case where the dominant signed
component is `0` forces the whole vector to `0`, which is fixed by both. -/
theorem canonical_dir_neg_all (v : Vec3) :
    canonical_dir (Vec3.neg v) = canonical_dir v := by
  rcases v with ⟨a, b, c⟩
  unfold canonical_dir
  by_cases h1 : |a| ≥ |b| ∧ |a| ≥ |c|
  · rcases lt_trichotomy a 0 with hx | hx | hx
    · have hx' : -a > 0 := by linarith
      simp [h1, Vec3.neg, abs_neg, not_lt.mpr (le_of_lt hx'), hx]
    · subst hx
      have hb : b = 0 := by
        have := h1.1; rw [abs_zero] at this
        exact abs_eq_zero.mp (le_antisymm this (abs_nonneg b))
      have hc : c = 0 := by
        have := h1.2; rw [abs_zero] at this
        exact abs_eq_zero.mp (le_antisymm this (abs_nonneg c))
      subst hb; subst hc
      simp [Vec3.neg]
    · have hx' : -a < 0 := by linarith
      simp [h1, Vec3.neg, abs_neg, hx', not_lt.mpr (le_of_lt hx), neg_neg]
  · by_cases h2 : |b| ≥ |a| ∧ |b| ≥ |c|
    · rcases lt_trichotomy b 0 with hy | hy | hy
      · have hy' : -b > 0 := by linarith
        simp [h1, h2, Vec3.neg, abs_neg, not_lt.mpr (le_of_lt hy'), hy]
      · subst hy
        have ha : a = 0 := by
          have := h2.1; rw [abs_zero] at this
          exact abs_eq_zero.mp (le_antisymm this (abs_nonneg a))
        have hc : c = 0 := by
          have := h2.2; rw [abs_zero] at this
          exact abs_eq_zero.mp (le_antisymm this (abs_nonneg c))
        subst ha; subst hc
        simp at h1
      · have hy' : -b < 0 := by linarith
        simp [h1, h2, Vec3.neg, abs_neg, hy', not_lt.mpr (le_of_lt hy), neg_neg]
    · rcases lt_trichotomy c 0 with hz | hz | hz
      · have hz' : -c > 0 := by linarith
        simp [h1, h2, Vec3.neg, abs_neg, not_lt.mpr (le_of_lt hz'), hz]
      · exfalso
        subst hz
        push_neg at h1 h2
        rcases le_or_lt |b| |a| with hab | hab
        · have h := h1 hab
          simp only [abs_zero] at h
          exact absurd h (not_lt.mpr (abs_nonneg a))
        · have h := h2 (le_of_lt hab)
          simp only [abs_zero] at h
          exact absurd h (not_lt.mpr (abs_nonneg b))
      · have hz' : -c < 0 := by linarith
        simp [h1, h2, Vec3.neg, abs_neg, hz', not_lt.mpr (le_of_lt hz), neg_neg]

/-- C6: for every unit vector, canonicalize ∘ canonicalize = canonicalize. -/
theorem C6_canonical_dir_idempotent (v : Vec3) (h : v.isUnit) :
    canonical_dir (canonical_dir v) = canonical_dir v :=
  canonical_dir_idem_all v

theorem C6_witness :
    (Vec3.mk 1 0 0).isUnit ∧
      canonical_dir (canonical_dir (Vec3.mk 1 0 0)) = canonical_dir (Vec3.mk 1 0 0) :=
  ⟨by norm_num [Vec3.isUnit],
    C6_canonical_dir_idempotent (Vec3.mk 1 0 0) (by norm_num [Vec3.isUnit])⟩

/-- C7: for every unit vector, `canonical_dir v = canonical_dir (-v)`, and
`canonical_dir` negates exactly when the first dominant axis (in order x, y,
z) has a negative signed component, as the spec's rule states. -/
theorem C7_canonical_dir_sign_invariant (v : Vec3) (h : v.isUnit) :
    canonical_dir v = canonical_dir (Vec3.neg v) ∧
      canonical_dir v = canonicalizeSpec v :=
  ⟨(canonical_dir_neg_all v).symm, canonical_dir_eq_spec v⟩

theorem C7_witness :
    (Vec3.mk 0 (-1) 0).isUnit ∧
      (canonical_dir (Vec3.mk 0 (-1) 0) = canonical_dir (Vec3.neg (Vec3.mk 0 (-1) 0)) ∧
        canonical_dir (Vec3.mk 0 (-1) 0) = canonicalizeSpec (Vec3.mk 0 (-1) 0)) :=
  ⟨by norm_num [Vec3.isUnit],
    C7_canonical_dir_sign_invariant (Vec3.mk 0 (-1) 0) (by norm_num [Vec3.isUnit])⟩

/-! ## Solid-containment oracle (`BRepClass3d_SolidClassifier`) -/

/-- `TopAbs_State`: result of classifying a point against a solid. -/
inductive TopAbsState
  | IN
  | ON
  | OUT
  | UNKNOWN
deriving DecidableEq, Repr

/-- A solid, seen through the kernel: a deterministic point-classification
oracle `state point tol` (construct-load-perform of
`BRepClass3d_SolidClassifier`, as wrapped by `_solid_state`). -/
structure Solid where
  state : Vec3 → ℚ → TopAbsState

/-- Shallow embedding of `_solid_state`. -/
def solid_state (solid : Solid) (p : Vec3) (tol : ℚ) : TopAbsState :=
  solid.state p tol

/-- Shallow embedding of `_is_in_or_on`: `st in (TopAbs_IN, TopAbs_ON)`. -/
def is_in_or_on (solid : Solid) (p : Vec3) (tol : ℚ) : Bool :=
  match solid_state solid p tol with
  | TopAbsState.IN => true
  | TopAbsState.ON => true
  | _ => false

/-- Surface kind reported by `BRepAdaptor_Surface.GetType()`; kinds other
than plane and cylinder are collapsed to `other` with their integer id. -/
inductive SurfaceType
  | plane
  | cylinder
  | other (id : ℤ)
deriving DecidableEq, Repr

/-- A face, seen through the kernel: surface type, trimmed UV bounds
(`breptools.UVBounds`), cylinder/plane parameters, area and centroid
(`brepgprop.SurfaceProperties`), and the `BRepLProp_SLProps` evaluation
`slprops u v tol`, which yields the surface point and unit normal, or
`none` when `IsNormalDefined()` is false. -/
structure FaceData where
  stype : SurfaceType
  uvBounds : ℚ × ℚ × ℚ × ℚ
  planeLoc : Vec3
  planeNormal : Vec3
  cylLoc : Vec3
  cylDir : Vec3
  cylRadius : ℚ
  area : ℚ
  centroid : Vec3
  slprops : ℚ → ℚ → ℚ → Option (Vec3 × Vec3)

/-! ## Hole/shaft classifier (`classify_cylinder_hole_vs_shaft`) -/

/-- The three candidate UV samples, in the source's fixed order:
`(0.5*(u1+u2), 0.5*(v1+v2))`, `(u1 + 0.33*(u2-u1), v1 + 0.33*(v2-v1))`,
`(u1 + 0.67*(u2-u1), v1 + 0.67*(v2-v1))`. -/
def uv_samples (u1 u2 v1 v2 : ℚ) : List (ℚ × ℚ) :=
  [ (0.5 * (u1 + u2), 0.5 * (v1 + v2)),
    (u1 + 0.33 * (u2 - u1), v1 + 0.33 * (v2 - v1)),
    (u1 + 0.67 * (u2 - u1), v1 + 0.67 * (v2 - v1)) ]

/-- The probe-distance ladder, in the source's fixed order:
`max(0.05, r*0.02), max(0.2, r*0.05), max(0.5, r*0.10), 1.0, 2.0`. -/
def eps_list (r : ℚ) : List ℚ :=
  [ max 0.05 (r * 0.02),
    max 0.2 (r * 0.05),
    max 0.5 (r * 0.10),
    1.0,
    2.0 ]

/-- Inner loop of the classifier (`for eps in eps_list`): probe `P ± εN`,
answer `hole`/`shaft` at the first decisive pair, `none` if the ladder is
exhausted. -/
def probe_eps (solid : Solid) (tol : ℚ) (p n : Vec3) : List ℚ → Option String
  | [] => none
  | eps :: rest =>
    let p_plus := p.addScaled eps n
    let p_minus := p.subScaled eps n
    let plus_in := is_in_or_on solid p_plus tol
    let minus_in := is_in_or_on solid p_minus tol
    if plus_in && !minus_in then some "hole"
    else if minus_in && !plus_in then some "shaft"
    else probe_eps solid tol p n rest

/-- Outer loop of the classifier (`for (u, v) in uv_samples`): skip samples
with undefined normal, return the first decisive inner-loop answer, or
`"unknown"` when samples are exhausted. -/
def probe_uv (solid : Solid) (face : FaceData) (tol : ℚ) (epsL : List ℚ) :
    List (ℚ × ℚ) → String
  | [] => "unknown"
  | (u, v) :: rest =>
    match face.slprops u v tol with
    | none => probe_uv solid face tol epsL rest
    | some (p, n) =>
      match probe_eps solid tol p n epsL with
      | some result => result
      | none => probe_uv solid face tol epsL rest

/-- Shallow embedding of `classify_cylinder_hole_vs_shaft`. -/
def classify_cylinder_hole_vs_shaft (solid : Solid) (face : FaceData) (tol : ℚ) : String :=
  if face.stype ≠ SurfaceType.cylinder then "unknown"
  else
    let b := face.uvBounds
    probe_uv solid face tol (eps_list face.cylRadius)
      (uv_samples b.1 b.2.1 b.2.2.1 b.2.2.2)

/-! ## Spec-side descriptions of the classifier -/

/-- "inside or on-boundary", on kernel states. -/
def stateInOrOn (s : TopAbsState) : Prop :=
  s = TopAbsState.IN ∨ s = TopAbsState.ON

instance (s : TopAbsState) : Decidable (stateInOrOn s) := by
  unfold stateInOrOn; infer_instance

/-- Modelled from the spec's words (claim C1 as stated): at one probe pair,
`hole` if `P+εN` is inside or on-boundary and `P−εN` is *strictly outside*;
`shaft` in the mirrored case; otherwise no decision. -/
def pairDecisionStrict (solid : Solid) (tol : ℚ) (p n : Vec3) (eps : ℚ) : Option String :=
  let sPlus := solid_state solid (p.addScaled eps n) tol
  let sMinus := solid_state solid (p.subScaled eps n) tol
  if stateInOrOn sPlus ∧ sMinus = TopAbsState.OUT then some "hole"
  else if stateInOrOn sMinus ∧ sPlus = TopAbsState.OUT then some "shaft"
  else none

/-- The amended per-pair decision, faithful to the code: `hole` if `P+εN`
is inside or on-boundary and `P−εN` is *not* (strictly outside or
indeterminate); `shaft` in the mirrored case; otherwise no decision. -/
def pairDecision (solid : Solid) (tol : ℚ) (p n : Vec3) (eps : ℚ) : Option String :=
  let sPlus := solid_state solid (p.addScaled eps n) tol
  let sMinus := solid_state solid (p.subScaled eps n) tol
  if stateInOrOn sPlus ∧ ¬ stateInOrOn sMinus then some "hole"
  else if stateInOrOn sMinus ∧ ¬ stateInOrOn sPlus then some "shaft"
  else none

/-- All per-pair decisions, in iteration order: UV samples in their fixed
order (samples with undefined normal contributing nothing), then probe
distances in their fixed order; parametrized by the per-pair rule. -/
def orderedDecisions (rule : Solid → ℚ → Vec3 → Vec3 → ℚ → Option String)
    (solid : Solid) (face : FaceData) (tol : ℚ) : List String :=
  let b := face.uvBounds
  (uv_samples b.1 b.2.1 b.2.2.1 b.2.2.2).flatMap fun s =>
    match face.slprops s.1 s.2 tol with
    | none => []
    | some (p, n) => (eps_list face.cylRadius).filterMap (rule solid tol p n)

/-- The classifier output the claim predicts: the first decision in
iteration order, `"unknown"` when there is none. -/
def predictedResult (rule : Solid → ℚ → Vec3 → Vec3 → ℚ → Option String)
    (solid : Solid) (face : FaceData) (tol : ℚ) : String :=
  (orderedDecisions rule solid face tol).headD "unknown"

theorem is_in_or_on_iff (solid : Solid) (p : Vec3) (tol : ℚ) :
    is_in_or_on solid p tol = true ↔ stateInOrOn (solid_state solid p tol) := by
  unfold is_in_or_on stateInOrOn
  cases solid_state solid p tol <;> simp

theorem is_in_or_on_eq_false_iff (solid : Solid) (p : Vec3) (tol : ℚ) :
    is_in_or_on solid p tol = false ↔ ¬ stateInOrOn (solid_state solid p tol) := by
  rw [← is_in_or_on_iff]
  cases is_in_or_on solid p tol <;> simp

/-- The inner loop returns the first decision of the probe ladder. -/
theorem probe_eps_eq_filterMap (solid : Solid) (tol : ℚ) (p n : Vec3) (l : List ℚ) :
    probe_eps solid tol p n l =
      (l.filterMap (pairDecision solid tol p n)).head? := by
  induction l with
  | nil => rfl
  | cons eps rest ih =>
    by_cases hp : stateInOrOn (solid_state solid (p.addScaled eps n) tol) <;>
    by_cases hm : stateInOrOn (solid_state solid (p.subScaled eps n) tol) <;>
    simp [probe_eps, pairDecision, List.filterMap_cons, is_in_or_on_iff,
      is_in_or_on_eq_false_iff, hp, hm, ih]

/-- The outer loop returns the first decision in full iteration order. -/
theorem probe_uv_eq_flatMap (solid : Solid) (face : FaceData) (tol : ℚ)
    (epsL : List ℚ) (l : List (ℚ × ℚ)) :
    probe_uv solid face tol epsL l =
      (l.flatMap fun s =>
        match face.slprops s.1 s.2 tol with
        | none => []
        | some (p, n) => epsL.filterMap (pairDecision solid tol p n)).headD "unknown" := by
  induction l with
  | nil => rfl
  | cons s rest ih =>
    rcases s with ⟨u, v⟩
    cases hsp : face.slprops u v tol with
    | none => simp [probe_uv, hsp, ih]
    | some pn =>
      rcases pn with ⟨p, n⟩
      have hpe := probe_eps_eq_filterMap solid tol p n epsL
      cases hfm : epsL.filterMap (pairDecision solid tol p n) with
      | nil =>
        rw [hfm] at hpe
        simp [probe_uv, hsp, hpe, hfm, ih]
      | cons a t =>
        rw [hfm] at hpe
        simp [probe_uv, hsp, hpe, hfm]

/-- C1 (amended): for every solid and cylindrical face, the classifier
returns the first decision in iteration order — UV samples in their fixed
order (samples with undefined normal skipped), probe distances in their
fixed order — where a pair decides `hole` when `P+εN` is inside or
on-boundary and `P−εN` is *not* inside or on-boundary (strictly outside or
indeterminate), `shaft` in the mirrored case, indecisive pairs advance to
the next ε, and the result is `unknown` exactly when all pairs are
exhausted without a decision. -/
theorem C1_classifier_first_decisive_pair (solid : Solid) (face : FaceData) (tol : ℚ)
    (h : face.stype = SurfaceType.cylinder) :
    classify_cylinder_hole_vs_shaft solid face tol =
      predictedResult pairDecision solid face tol := by
  have hmain := probe_uv_eq_flatMap solid face tol (eps_list face.cylRadius)
    (uv_samples face.uvBounds.1 face.uvBounds.2.1 face.uvBounds.2.2.1 face.uvBounds.2.2.2)
  simpa [classify_cylinder_hole_vs_shaft, predictedResult, orderedDecisions, h] using hmain

theorem C1_witness :
    (FaceData.mk SurfaceType.cylinder (0, 1, 0, 1) ⟨0,0,0⟩ ⟨0,0,0⟩ ⟨0,0,0⟩ ⟨0,0,0⟩ 1 0 ⟨0,0,0⟩
        (fun _ _ _ => none)).stype = SurfaceType.cylinder ∧
      classify_cylinder_hole_vs_shaft (Solid.mk fun _ _ => TopAbsState.OUT)
          (FaceData.mk SurfaceType.cylinder (0, 1, 0, 1) ⟨0,0,0⟩ ⟨0,0,0⟩ ⟨0,0,0⟩ ⟨0,0,0⟩ 1 0
            ⟨0,0,0⟩ (fun _ _ _ => none)) 1 =
        predictedResult pairDecision (Solid.mk fun _ _ => TopAbsState.OUT)
          (FaceData.mk SurfaceType.cylinder (0, 1, 0, 1) ⟨0,0,0⟩ ⟨0,0,0⟩ ⟨0,0,0⟩ ⟨0,0,0⟩ 1 0
            ⟨0,0,0⟩ (fun _ _ _ => none)) 1 :=
  ⟨rfl, C1_classifier_first_decisive_pair _ _ _ rfl⟩

/-- C1 fails as stated: when `P−εN` classifies as indeterminate the code
treats it like "not inside", so it answers `hole` at a pair the claim calls
indecisive (it demands strictly outside), and the claim predicts `unknown`. -/
theorem C1_counterexample :
    classify_cylinder_hole_vs_shaft
        (Solid.mk fun q _ => if 0 < q.x then TopAbsState.IN else TopAbsState.UNKNOWN)
        (FaceData.mk SurfaceType.cylinder (0, 1, 0, 1) ⟨0,0,0⟩ ⟨0,0,0⟩ ⟨0,0,0⟩ ⟨0,0,0⟩ 1 0
          ⟨0,0,0⟩ (fun u _ _ => if u = 0.5 then some (⟨0,0,0⟩, ⟨1,0,0⟩) else none))
        (1/1000000) = "hole" ∧
      predictedResult pairDecisionStrict
        (Solid.mk fun q _ => if 0 < q.x then TopAbsState.IN else TopAbsState.UNKNOWN)
        (FaceData.mk SurfaceType.cylinder (0, 1, 0, 1) ⟨0,0,0⟩ ⟨0,0,0⟩ ⟨0,0,0⟩ ⟨0,0,0⟩ 1 0
          ⟨0,0,0⟩ (fun u _ _ => if u = 0.5 then some (⟨0,0,0⟩, ⟨1,0,0⟩) else none))
        (1/1000000) = "unknown" := by
  constructor
  · norm_num [classify_cylinder_hole_vs_shaft, predictedResult, orderedDecisions,
      probe_uv, probe_eps, uv_samples, eps_list, pairDecisionStrict, is_in_or_on,
      solid_state, stateInOrOn, Vec3.addScaled, Vec3.subScaled, max_def,
      List.findSome?_cons, List.findSome?_nil]
  · norm_num [classify_cylinder_hole_vs_shaft, predictedResult, orderedDecisions,
      probe_uv, probe_eps, uv_samples, eps_list, pairDecisionStrict, is_in_or_on,
      solid_state, stateInOrOn, Vec3.addScaled, Vec3.subScaled, max_def,
      List.findSome?_cons, List.findSome?_nil]
    decide

/-- C10: a face whose surface type is not cylinder is answered `unknown`
immediately, for every containment oracle and every tolerance (so no
containment query or UV sample can influence the result). -/
theorem C10_non_cylinder_returns_unknown (solid : Solid) (face : FaceData) (tol : ℚ)
    (h : face.stype ≠ SurfaceType.cylinder) :
    classify_cylinder_hole_vs_shaft solid face tol = "unknown" := by
  unfold classify_cylinder_hole_vs_shaft
  rw [if_pos h]

theorem C10_witness :
    (FaceData.mk SurfaceType.plane (0, 1, 0, 1) ⟨0,0,0⟩ ⟨0,0,1⟩ ⟨0,0,0⟩ ⟨0,0,0⟩ 0 0 ⟨0,0,0⟩
        (fun _ _ _ => none)).stype ≠ SurfaceType.cylinder ∧
      classify_cylinder_hole_vs_shaft (Solid.mk fun _ _ => TopAbsState.IN)
        (FaceData.mk SurfaceType.plane (0, 1, 0, 1) ⟨0,0,0⟩ ⟨0,0,1⟩ ⟨0,0,0⟩ ⟨0,0,0⟩ 0 0 ⟨0,0,0⟩
          (fun _ _ _ => none)) 1 = "unknown" :=
  ⟨by simp, C10_non_cylinder_returns_unknown _ _ _ (by simp)⟩

/-- Modelled from the spec: the UV sample at fractional offset `f` into
`[u1,u2] × [v1,v2]`. -/
def sample_at (u1 u2 v1 v2 f : ℚ) : ℚ × ℚ :=
  (u1 + f * (u2 - u1), v1 + f * (v2 - v1))

/-- C4 fails as stated: with UV bounds (0,1,0,1), the second and third
samples sit at offsets 0.33 and 0.67, not at the one-third and two-third
points. -/
theorem C4_counterexample :
    uv_samples 0 1 0 1 ≠
      [sample_at 0 1 0 1 (1/2), sample_at 0 1 0 1 (1/3), sample_at 0 1 0 1 (2/3)] := by
  norm_num [uv_samples, sample_at]

/-- C4 (amended): the three candidate UV samples are, in this fixed order,
the points at fractional offsets (0.5, 0.5), (0.33, 0.33) and (0.67, 0.67)
into `[u1,u2] × [v1,v2]`. -/
theorem C4_uv_sample_points (u1 u2 v1 v2 : ℚ) :
    uv_samples u1 u2 v1 v2 =
      [sample_at u1 u2 v1 v2 0.5, sample_at u1 u2 v1 v2 0.33, sample_at u1 u2 v1 v2 0.67] := by
  simp only [uv_samples, sample_at, List.cons.injEq, Prod.mk.injEq, and_true]
  and_intros <;> ring

/-- C5 fails as stated: at radius 20 the ladder is [0.4, 1, 2, 1, 2], whose
third entry exceeds its fourth, so it is not in increasing order. -/
theorem C5_counterexample :
    (0:ℚ) < 20 ∧ ¬ List.Chain' (fun a b => a ≤ b) (eps_list 20) := by
  norm_num [eps_list, List.chain'_cons, List.chain'_singleton, max_def]

/-- C5 (amended): for r > 0 the ladder consists of exactly the five claimed
values in the claimed order, but the sequence is nondecreasing iff r ≤ 10
and strictly increasing iff r < 10: for larger radii the third rung 0.10·r
exceeds the fixed fourth rung 1.0. -/
theorem C5_eps_ladder (r : ℚ) (hr : 0 < r) :
    eps_list r = [max 0.05 (r * 0.02), max 0.2 (r * 0.05), max 0.5 (r * 0.10), 1.0, 2.0] ∧
      (List.Chain' (fun a b => a ≤ b) (eps_list r) ↔ r ≤ 10) ∧
      (List.Chain' (fun a b => a < b) (eps_list r) ↔ r < 10) := by
  refine ⟨rfl, ?_, ?_⟩
  · simp only [eps_list, List.chain'_cons, List.chain'_singleton, and_true]
    constructor
    · rintro ⟨-, -, h3, -⟩
      rw [max_le_iff] at h3
      linarith [h3.2]
    · intro h
      refine ⟨max_le (le_max_of_le_left (by norm_num)) (le_max_of_le_right (by linarith)),
              max_le (le_max_of_le_left (by norm_num)) (le_max_of_le_right (by linarith)),
              max_le (by norm_num) (by linarith), by norm_num⟩
  · simp only [eps_list, List.chain'_cons, List.chain'_singleton, and_true]
    constructor
    · rintro ⟨-, -, h3, -⟩
      rw [max_lt_iff] at h3
      linarith [h3.2]
    · intro h
      refine ⟨max_lt (lt_max_iff.mpr (Or.inl (by norm_num))) (lt_max_iff.mpr (Or.inr (by linarith))),
              max_lt (lt_max_iff.mpr (Or.inl (by norm_num))) (lt_max_iff.mpr (Or.inr (by linarith))),
              max_lt (by norm_num) (by linarith), by norm_num⟩

theorem C5_witness :
    (0:ℚ) < 5 ∧
      (eps_list 5 = [max 0.05 (5 * 0.02), max 0.2 (5 * 0.05), max 0.5 (5 * 0.10), 1.0, 2.0] ∧
        (List.Chain' (fun a b => a ≤ b) (eps_list 5) ↔ (5:ℚ) ≤ 10) ∧
        (List.Chain' (fun a b => a < b) (eps_list 5) ↔ (5:ℚ) < 10)) :=
  ⟨by norm_num, C5_eps_ladder 5 (by norm_num)⟩

/-! ## Rounding and stable identifiers (geomate/io/ids.py) -/

/-- Round-half-to-even at integer resolution, the rule Python's
`f"{x:.3f}"` float formatting applies at the last kept digit. -/
def roundHalfEven (x : ℚ) : ℤ :=
  let f : ℤ := ⌊x⌋
  let frac : ℚ := x - f
  if frac < 1/2 then f
  else if 1/2 < frac then f + 1
  else if f % 2 = 0 then f else f + 1

/-- Shallow embedding of `_round3`: `float(f"{x:.3f}")`, i.e. rounding to 3
decimal places. -/
def round3 (x : ℚ) : ℚ := (roundHalfEven (x * 1000) : ℚ) / 1000

/-- The rounded coordinate triple `(_round3(X), _round3(Y), _round3(Z))`
used throughout `stable_face_key`. -/
def roundTriple (v : Vec3) : ℚ × ℚ × ℚ := (round3 v.x, round3 v.y, round3 v.z)

theorem roundHalfEven_err (x : ℚ) : |(roundHalfEven x : ℚ) - x| ≤ 1/2 := by
  have hf1 : ((⌊x⌋ : ℤ) : ℚ) ≤ x := Int.floor_le x
  have hf2 : x < (⌊x⌋ : ℤ) + 1 := Int.lt_floor_add_one x
  simp only [roundHalfEven]
  split_ifs with h1 h2 h3 <;> rw [abs_le] <;> constructor <;> push_cast <;>
    push_cast at h1 <;> linarith

/-- Two values closer than 1e-4 round (at 3 decimals) to values at most one
unit in the last place apart: the integer parts at resolution 1/1000 differ
by less than 2, hence by at most 1. -/
theorem round3_close (a b : ℚ) (h : |a - b| < 1/10000) :
    |round3 a - round3 b| ≤ 1/1000 := by
  have ha := roundHalfEven_err (a * 1000)
  have hb := roundHalfEven_err (b * 1000)
  have hab : |a * 1000 - b * 1000| ≤ 1/10 := by
    rw [show a * 1000 - b * 1000 = (a - b) * 1000 by ring, abs_mul]
    have h1000 : |(1000 : ℚ)| = 1000 := by norm_num
    rw [h1000]
    linarith
  have hmn : |(roundHalfEven (a * 1000) : ℚ) - (roundHalfEven (b * 1000) : ℚ)| < 2 := by
    have tri := abs_sub_le ((roundHalfEven (a * 1000) : ℚ)) (a * 1000)
      ((roundHalfEven (b * 1000) : ℚ))
    have tri2 := abs_sub_le (a * 1000) (b * 1000) ((roundHalfEven (b * 1000) : ℚ))
    have hsymm : |b * 1000 - (roundHalfEven (b * 1000) : ℚ)| ≤ 1/2 := by
      rw [abs_sub_comm]; exact hb
    linarith
  have hint : |roundHalfEven (a * 1000) - roundHalfEven (b * 1000)| ≤ 1 := by
    have h2 : |roundHalfEven (a * 1000) - roundHalfEven (b * 1000)| < 2 := by
      have : ((|roundHalfEven (a * 1000) - roundHalfEven (b * 1000)| : ℤ) : ℚ) < 2 := by
        push_cast
        exact hmn
      exact_mod_cast this
    omega
  have heq : round3 a - round3 b =
      ((roundHalfEven (a * 1000) - roundHalfEven (b * 1000) : ℤ) : ℚ) / 1000 := by
    unfold round3
    push_cast
    ring
  rw [heq, abs_div]
  have h1000 : |(1000 : ℚ)| = 1000 := by norm_num
  rw [h1000]
  rw [div_le_div_iff (by norm_num) (by norm_num)]
  have : |((roundHalfEven (a * 1000) - roundHalfEven (b * 1000) : ℤ) : ℚ)| ≤ 1 := by
    rw [← Int.cast_abs]
    exact_mod_cast hint
  linarith

/-- C3 fails as stated: 0.0014999 and 0.0015001 differ by 0.0000002, far
below 1e-4, yet round to 0.001 and 0.002 at 3 decimal places — components
straddling a rounding boundary defeat the claimed stability. -/
theorem C3_counterexample :
    (|(Vec3.mk (14999/10000000) 0 0).x - (Vec3.mk (15001/10000000) 0 0).x| < 1/10000 ∧
      |(Vec3.mk (14999/10000000) 0 0).y - (Vec3.mk (15001/10000000) 0 0).y| < 1/10000 ∧
      |(Vec3.mk (14999/10000000) 0 0).z - (Vec3.mk (15001/10000000) 0 0).z| < 1/10000) ∧
      roundTriple (Vec3.mk (14999/10000000) 0 0) ≠
        roundTriple (Vec3.mk (15001/10000000) 0 0) := by
  constructor
  · norm_num [abs_lt]
  · norm_num [roundTriple, round3, roundHalfEven, Prod.ext_iff]

/-- C3 (amended): two direction vectors differing by less than 1e-4 in every
component have 3-decimal roundings that differ by at most one unit in the
last place (0.001) per component; equality of the rounded tuples is not
guaranteed. -/
theorem C3_round3_stability (v w : Vec3)
    (hx : |v.x - w.x| < 1/10000) (hy : |v.y - w.y| < 1/10000)
    (hz : |v.z - w.z| < 1/10000) :
    |round3 v.x - round3 w.x| ≤ 1/1000 ∧ |round3 v.y - round3 w.y| ≤ 1/1000 ∧
      |round3 v.z - round3 w.z| ≤ 1/1000 :=
  ⟨round3_close v.x w.x hx, round3_close v.y w.y hy, round3_close v.z w.z hz⟩

theorem C3_witness :
    (|(Vec3.mk 1 0 0).x - (Vec3.mk 1 0 0).x| < 1/10000 ∧
      |(Vec3.mk 1 0 0).y - (Vec3.mk 1 0 0).y| < 1/10000 ∧
      |(Vec3.mk 1 0 0).z - (Vec3.mk 1 0 0).z| < 1/10000) ∧
      (|round3 (Vec3.mk 1 0 0).x - round3 (Vec3.mk 1 0 0).x| ≤ 1/1000 ∧
        |round3 (Vec3.mk 1 0 0).y - round3 (Vec3.mk 1 0 0).y| ≤ 1/1000 ∧
        |round3 (Vec3.mk 1 0 0).z - round3 (Vec3.mk 1 0 0).z| ≤ 1/1000) :=
  ⟨⟨by norm_num [abs_lt], by norm_num [abs_lt],
      by norm_num [abs_lt]⟩,
    C3_round3_stability (Vec3.mk 1 0 0) (Vec3.mk 1 0 0)
      (by norm_num [abs_lt]) (by norm_num [abs_lt])
      (by norm_num [abs_lt])⟩

/-- Metadata from `path.stat()` used by `_file_fingerprint`: file name,
size in bytes, and integer modification time. -/
structure FileMeta where
  name : String
  size : ℕ
  mtime : ℤ
deriving DecidableEq, Repr

/-- Shallow embedding of `_file_fingerprint`, parametric in the external
SHA-1 hex-digest function: `sha1(f"{path.name}|{st.st_size}|{int(st.st_mtime)}")`. -/
def file_fingerprint (sha1 : String → String) (meta : FileMeta) : String :=
  sha1 (meta.name ++ "|" ++ toString meta.size ++ "|" ++ toString meta.mtime)

/-- The rounded geometric key tuple built by `stable_face_key` before
hashing: kind tag, kind-specific rounded parameters, rounded area and
rounded centroid. -/
inductive GeomKey
  | plane (loc : ℚ × ℚ × ℚ) (normal : ℚ × ℚ × ℚ) (area : ℚ) (centroid : ℚ × ℚ × ℚ)
  | cyl (loc : ℚ × ℚ × ℚ) (dir : ℚ × ℚ × ℚ) (radius : ℚ) (area : ℚ) (centroid : ℚ × ℚ × ℚ)
  | other (stypeId : ℤ) (area : ℚ) (centroid : ℚ × ℚ × ℚ)
deriving DecidableEq, Repr

/-- The key tuple of `stable_face_key`, per surface kind. -/
def geom_key (face : FaceData) : GeomKey :=
  let area_r := round3 face.area
  let centroid := roundTriple face.centroid
  match face.stype with
  | SurfaceType.plane =>
    GeomKey.plane (roundTriple face.planeLoc) (roundTriple face.planeNormal) area_r centroid
  | SurfaceType.cylinder =>
    GeomKey.cyl (roundTriple face.cylLoc) (roundTriple face.cylDir)
      (round3 face.cylRadius) area_r centroid
  | SurfaceType.other i => GeomKey.other i area_r centroid

/-- Shallow embedding of `stable_face_key`: `sha1(str(key))`, with the
Python tuple serialization `str` abstracted as `keyRepr`. -/
def stable_face_key (sha1 : String → String) (keyRepr : GeomKey → String)
    (face : FaceData) : String :=
  sha1 (keyRepr (geom_key face))

/-- Shallow embedding of `PartId.from_step`:
`f"part_{fp[:10]}_r{root_index}_s{solid_index}"`. -/
def PartId.from_step (sha1 : String → String) (meta : FileMeta)
    (root_index solid_index : ℕ) : String :=
  "part_" ++ (file_fingerprint sha1 meta).take 10 ++ "_r" ++ toString root_index
    ++ "_s" ++ toString solid_index

/-- Shallow embedding of `FaceId.from_face`: `f"{part_id}_face_{key[:12]}"`. -/
def FaceId.from_face (sha1 : String → String) (keyRepr : GeomKey → String)
    (part_id : String) (face : FaceData) : String :=
  part_id ++ "_face_" ++ (stable_face_key sha1 keyRepr face).take 12

/-- Modelled from the spec:
`PartId = "part_" + first-10-hex(file_fingerprint) + "_r" + root_index + "_s" + solid_index`. -/
def partIdSpec (sha1 : String → String) (meta : FileMeta)
    (root_index solid_index : ℕ) : String :=
  "part_" ++ (file_fingerprint sha1 meta).take 10 ++ "_r" ++ toString root_index
    ++ "_s" ++ toString solid_index

/-- Modelled from the spec:
`FaceId = PartId + "_face_" + first-12-hex(hash(GeometricKey))`. -/
def faceIdSpec (sha1 : String → String) (keyRepr : GeomKey → String)
    (part_id : String) (face : FaceData) : String :=
  part_id ++ "_face_" ++ (sha1 (keyRepr (geom_key face))).take 12

/-- C2: PartId and FaceId have exactly the claimed string shape, and they
are pure functions of (file name, size, mtime, root index, solid index)
resp. (PartId, geometric key): metadata with equal fields yields equal
identifiers — there is no hidden counter. -/
theorem C2_identifier_schema (sha1 : String → String) (keyRepr : GeomKey → String)
    (meta meta' : FileMeta) (root_index solid_index : ℕ) (part_id : String)
    (face : FaceData) (hn : meta.name = meta'.name) (hs : meta.size = meta'.size)
    (hm : meta.mtime = meta'.mtime) :
    PartId.from_step sha1 meta root_index solid_index =
        partIdSpec sha1 meta root_index solid_index ∧
      FaceId.from_face sha1 keyRepr part_id face =
        faceIdSpec sha1 keyRepr part_id face ∧
      PartId.from_step sha1 meta root_index solid_index =
        PartId.from_step sha1 meta' root_index solid_index := by
  refine ⟨rfl, rfl, ?_⟩
  obtain ⟨n1, s1, m1⟩ := meta
  obtain ⟨n2, s2, m2⟩ := meta'
  cases hn; cases hs; cases hm
  rfl

theorem C2_witness :
    ((FileMeta.mk "plate.step" 2048 17).name = (FileMeta.mk "plate.step" 2048 17).name ∧
      (FileMeta.mk "plate.step" 2048 17).size = (FileMeta.mk "plate.step" 2048 17).size ∧
      (FileMeta.mk "plate.step" 2048 17).mtime = (FileMeta.mk "plate.step" 2048 17).mtime) ∧
      (PartId.from_step (fun s => s) (FileMeta.mk "plate.step" 2048 17) 0 1 =
          partIdSpec (fun s => s) (FileMeta.mk "plate.step" 2048 17) 0 1 ∧
        FaceId.from_face (fun s => s) (fun _ => "k") "p" (FaceData.mk SurfaceType.plane
            (0, 1, 0, 1) ⟨0,0,0⟩ ⟨0,0,1⟩ ⟨0,0,0⟩ ⟨0,0,0⟩ 0 0 ⟨0,0,0⟩ (fun _ _ _ => none)) =
          faceIdSpec (fun s => s) (fun _ => "k") "p" (FaceData.mk SurfaceType.plane
            (0, 1, 0, 1) ⟨0,0,0⟩ ⟨0,0,1⟩ ⟨0,0,0⟩ ⟨0,0,0⟩ 0 0 ⟨0,0,0⟩ (fun _ _ _ => none)) ∧
        PartId.from_step (fun s => s) (FileMeta.mk "plate.step" 2048 17) 0 1 =
          PartId.from_step (fun s => s) (FileMeta.mk "plate.step" 2048 17) 0 1) :=
  ⟨⟨rfl, rfl, rfl⟩,
    C2_identifier_schema (fun s => s) (fun _ => "k") (FileMeta.mk "plate.step" 2048 17)
      (FileMeta.mk "plate.step" 2048 17) 0 1 "p"
      (FaceData.mk SurfaceType.plane (0, 1, 0, 1) ⟨0,0,0⟩ ⟨0,0,1⟩ ⟨0,0,0⟩ ⟨0,0,0⟩ 0 0 ⟨0,0,0⟩
        (fun _ _ _ => none)) rfl rfl rfl⟩

/-! ## Feature extractor (`extract_features_for_solid`) -/

/-- `_pnt_to_list`: `[p.X(), p.Y(), p.Z()]`. -/
def pnt_to_list (p : Vec3) : List ℚ := [p.x, p.y, p.z]

/-- `_dir_to_list`: `[d.X(), d.Y(), d.Z()]`. -/
def dir_to_list (d : Vec3) : List ℚ := [d.x, d.y, d.z]

/-- Kind-specific `geom` payload of a feature record. -/
inductive FeatureGeom
  | plane (origin : List ℚ) (normal : List ℚ)
  | cylinder (axis_point : List ℚ) (axis_dir : List ℚ) (radius : ℚ)
deriving DecidableEq, Repr

/-- One feature record of the per-solid catalog. -/
structure Feature where
  feature_id : String
  ftype : String
  face_id : String
  tags : List String
  geom : FeatureGeom
  area : ℚ
  centroid : List ℚ
deriving DecidableEq, Repr

/-- The face loop of `extract_features_for_solid`: planes and cylinders
append a record, every other surface kind is skipped (`continue`). -/
def extract_faces (sha1 : String → String) (keyRepr : GeomKey → String)
    (part_id : String) (solid : Solid) : List FaceData → List Feature
  | [] => []
  | face :: rest =>
    let face_id := FaceId.from_face sha1 keyRepr part_id face
    match face.stype with
    | SurfaceType.plane =>
      { feature_id := face_id ++ "_plane"
        ftype := "plane"
        face_id := face_id
        tags := []
        geom := FeatureGeom.plane (pnt_to_list face.planeLoc)
          (dir_to_list (canonical_dir face.planeNormal))
        area := face.area
        centroid := pnt_to_list face.centroid } ::
        extract_faces sha1 keyRepr part_id solid rest
    | SurfaceType.cylinder =>
      let kind := classify_cylinder_hole_vs_shaft solid face (1/1000000)
      { feature_id := face_id ++ "_cyl"
        ftype := "cylinder"
        face_id := face_id
        tags := if kind ≠ "unknown" then [kind] else []
        geom := FeatureGeom.cylinder (pnt_to_list face.cylLoc)
          (dir_to_list (canonical_dir face.cylDir)) face.cylRadius
        area := face.area
        centroid := pnt_to_list face.centroid } ::
        extract_faces sha1 keyRepr part_id solid rest
    | SurfaceType.other _ => extract_faces sha1 keyRepr part_id solid rest

/-- The per-solid payload of `extract_features_for_solid`. -/
structure Payload where
  schema_version : String
  part_id : String
  step_path : String
  solid_index : ℕ
  units : String
  features : List Feature
deriving DecidableEq, Repr

/-- Shallow embedding of `extract_features_for_solid`, with the faces of the
solid (in kernel enumeration order, `iter_faces`) passed explicitly. -/
def extract_features_for_solid (sha1 : String → String) (keyRepr : GeomKey → String)
    (part_id : String) (solid : Solid) (faces : List FaceData)
    (step_path : String) (solid_index : ℕ) : Payload :=
  { schema_version := "0.1"
    part_id := part_id
    step_path := step_path
    solid_index := solid_index
    units := "mm"
    features := extract_faces sha1 keyRepr part_id solid faces }

/-- C8: the extractor is total — a face of any other surface kind emits no
record and raises nothing — and every emitted catalog entry has type
`"plane"` or `"cylinder"`. -/
theorem C8_catalog_entries_plane_or_cylinder (sha1 : String → String)
    (keyRepr : GeomKey → String) (part_id : String) (solid : Solid)
    (faces : List FaceData) (step_path : String) (solid_index : ℕ) :
    (∀ f, f ∈ (extract_features_for_solid sha1 keyRepr part_id solid faces
        step_path solid_index).features → f.ftype = "plane" ∨ f.ftype = "cylinder") ∧
      (∀ i (face : FaceData) (rest : List FaceData), face.stype = SurfaceType.other i →
        extract_faces sha1 keyRepr part_id solid (face :: rest) =
          extract_faces sha1 keyRepr part_id solid rest) := by
  constructor
  · show ∀ f, f ∈ extract_faces sha1 keyRepr part_id solid faces → _
    induction faces with
    | nil => intro f hf; simp [extract_faces] at hf
    | cons face rest ih =>
      intro f hf
      cases hst : face.stype with
      | plane =>
        rw [extract_faces, hst] at hf
        rcases List.mem_cons.mp hf with h | h
        · left; rw [h]
        · exact ih f h
      | cylinder =>
        rw [extract_faces, hst] at hf
        rcases List.mem_cons.mp hf with h | h
        · right; rw [h]
        · exact ih f h
      | other i =>
        rw [extract_faces, hst] at hf
        exact ih f hf
  · intro i face rest hst
    rw [extract_faces, hst]

theorem C8_witness :
    extract_faces (fun s => s) (fun _ => "k") "p" (Solid.mk fun _ _ => TopAbsState.OUT)
        [FaceData.mk (SurfaceType.other 7) (0, 1, 0, 1) ⟨0,0,0⟩ ⟨0,0,0⟩ ⟨0,0,0⟩ ⟨0,0,0⟩ 0 0
          ⟨0,0,0⟩ (fun _ _ _ => none)] =
      extract_faces (fun s => s) (fun _ => "k") "p" (Solid.mk fun _ _ => TopAbsState.OUT) [] :=
  (C8_catalog_entries_plane_or_cylinder (fun s => s) (fun _ => "k") "p"
      (Solid.mk fun _ _ => TopAbsState.OUT) [] "f.step" 0).2 7
    (FaceData.mk (SurfaceType.other 7) (0, 1, 0, 1) ⟨0,0,0⟩ ⟨0,0,0⟩ ⟨0,0,0⟩ ⟨0,0,0⟩ 0 0
      ⟨0,0,0⟩ (fun _ _ _ => none)) [] rfl

/-! ## STEP loading (`load_step_shapes`, geomate/io/step_io.py) -/

/-- Return statuses of `STEPControl_Reader.ReadFile` (`IFSelect_ReturnStatus`);
only `RetDone` signals success. -/
inductive IFSelectStatus
  | RetVoid
  | RetDone
  | RetError
  | RetFail
  | RetStop
deriving DecidableEq, Repr

/-- The STEP reader, seen through the kernel: outcome of `ReadFile`, the
count returned by `TransferRoots()`, and the 1-based `Shape(i)` accessor
with its count `NbShapes()`. -/
structure StepReader (Shape : Type) where
  readStatus : IFSelectStatus
  transferRoots : ℕ
  nbShapes : ℕ
  shape : ℕ → Shape

/-- The two `RuntimeError`s `load_step_shapes` can raise. -/
inductive LoadError
  | readFailed (status : IFSelectStatus)
  | noRoots
deriving DecidableEq, Repr

/-- Shallow embedding of `load_step_shapes`: fail when `ReadFile` does not
return `RetDone` or `TransferRoots()` yields zero roots, else collect
`Shape(1) .. Shape(NbShapes())`. -/
def load_step_shapes {Shape : Type} (r : StepReader Shape) :
    Except LoadError (List Shape) :=
  if r.readStatus ≠ IFSelectStatus.RetDone then
    Except.error (LoadError.readFailed r.readStatus)
  else if r.transferRoots = 0 then
    Except.error LoadError.noRoots
  else
    Except.ok ((List.range r.nbShapes).map fun i => r.shape (i + 1))

/-- C9: the loader fails exactly when reading fails or the transfer yields
zero roots (returning no shapes — in the embedding, an error value instead
of a result), and otherwise returns the transferred root shapes
`Shape(1) .. Shape(NbShapes())`. -/
theorem C9_load_step_shapes_spec {Shape : Type} (r : StepReader Shape) :
    ((∃ e, load_step_shapes r = Except.error e) ↔
        (r.readStatus ≠ IFSelectStatus.RetDone ∨ r.transferRoots = 0)) ∧
      (r.readStatus = IFSelectStatus.RetDone → r.transferRoots ≠ 0 →
        load_step_shapes r =
          Except.ok ((List.range r.nbShapes).map fun i => r.shape (i + 1))) := by
  constructor
  · by_cases h1 : r.readStatus = IFSelectStatus.RetDone
    · by_cases h2 : r.transferRoots = 0
      · simp [load_step_shapes, h1, h2]
      · simp [load_step_shapes, h1, h2]
    · simp [load_step_shapes, h1]
  · intro h1 h2
    simp [load_step_shapes, h1, h2]

theorem C9_witness :
    ((StepReader.mk IFSelectStatus.RetDone 1 2 (fun i => i) : StepReader ℕ).readStatus =
        IFSelectStatus.RetDone ∧
      (StepReader.mk IFSelectStatus.RetDone 1 2 (fun i => i) : StepReader ℕ).transferRoots ≠ 0) ∧
      load_step_shapes (StepReader.mk IFSelectStatus.RetDone 1 2 (fun i => i) : StepReader ℕ) =
        Except.ok ((List.range 2).map fun i => i + 1) :=
  ⟨⟨rfl, by decide⟩,
    (C9_load_step_shapes_spec (StepReader.mk IFSelectStatus.RetDone 1 2 fun i => i)).2
      rfl (by decide)⟩
